import Mathlib

/-!
Shallow embedding of the VersionControlHelperMCP operation surface.

The dispatch layer — `register_tools`, the nested `get_manager` helper and
every tool body — is translated directly from `src/github_mcp/tools.py`.
The repository ships no `git_utils.py` or `models.py`, so the `GitManager`
façade it delegates to (initialize, is_initialized, get_status, commit_all,
list_commits, compare_commits, rollback) and the four result entities are
modelled from the specification, section 3 and section 4.1; each such
definition is marked `Modelled from the spec:` in its doc comment.

Identifier note: some Python names (`initialize`, `is_initialized`,
`initialize_repo`) are abbreviated to `initRepo`, `is_init`, `init_repo`
in this file; all other names follow the source.
-/

deriving instance DecidableEq for Except

namespace VCH

/-- Error kinds. The specification's taxonomy (section 7) has exactly four
members: NotFoundError, ValidationError, ConflictError and
RepositoryNotInitializedError (`repoNotInit` here). The extra constructor
`valueError` models the plain Python `ValueError` raised by `get_manager`
in `tools.py`, an error kind outside that four-member taxonomy. -/
inductive VcError where
  | notFound (msg : String)
  | validation (msg : String)
  | conflict (msg : String)
  | repoNotInit (msg : String)
  | valueError (msg : String)
deriving DecidableEq, Repr

/-- True exactly for the four error kinds of the specification's taxonomy
(section 7); false for the plain `ValueError` of `get_manager`. -/
def inTaxonomy : VcError → Bool
  | .valueError _ => false
  | _ => true

/-- A snapshot of file contents: path ↦ content. -/
abbrev Tree := List (String × String)

/-- Modelled from the spec: a commit object. Fields `sha`, `message`,
`author`, `timestamp` are the spec's CommitRecord (section 3); `tree` is
the committed snapshot, needed for `compare_commits`' two-tree diff. -/
structure Commit where
  sha : String
  message : String
  author : String
  timestamp : String
  tree : Tree
deriving DecidableEq, Repr

/-- Modelled from the spec: `CommitRecord { sha, message, author,
timestamp }` (section 3). -/
structure CommitRecord where
  sha : String
  message : String
  author : String
  timestamp : String
deriving DecidableEq, Repr

/-- Project a commit object to the record shape returned by history
listings. -/
def Commit.toRecord (c : Commit) : CommitRecord :=
  { sha := c.sha, message := c.message, author := c.author, timestamp := c.timestamp }

/-- Modelled from the spec: the on-disk state of one repository path, the
only persistent state of the system (section 3, "Ownership"). `is_init`
models `is_initialized`; `commits` is the current branch's history, newest
first (section 3: order is the engine's order, no reordering performed);
`branches` maps other local branch names to their histories; `staged`,
`modified` and `untracked` are the working-tree change sets reported by
`get_status`; `working_tree` is the current file snapshot on disk. -/
structure RepoState where
  is_init : Bool
  commits : List Commit
  branches : List (String × List Commit)
  current_branch : Option String
  staged : List String
  modified : List String
  untracked : List String
  working_tree : Tree
deriving DecidableEq, Repr

/-- Modelled from the spec: RepoStatus (section 3). `is_init` models the
`is_initialized` field. -/
structure RepoStatus where
  is_init : Bool
  current_branch : Option String
  has_changes : Bool
  staged_files : List String
  modified_files : List String
  untracked_files : List String
deriving DecidableEq, Repr

/-- Modelled from the spec: CommitList (section 3). -/
structure CommitList where
  branch : String
  commits : List CommitRecord
deriving DecidableEq, Repr

/-- Modelled from the spec: the per-file change status enum of FileChange
(section 3). -/
inductive ChangeStatus where
  | added
  | modified
  | deleted
  | renamed
deriving DecidableEq, Repr

/-- Modelled from the spec: `FileChange { path, status, patch }`
(section 3). -/
structure FileChange where
  path : String
  status : ChangeStatus
  patch : String
deriving DecidableEq, Repr

/-- Modelled from the spec: CommitDiff (section 3). -/
structure CommitDiff where
  from_sha : String
  to_sha : String
  files_changed : List FileChange
  insertions : Nat
  deletions : Nat
deriving DecidableEq, Repr

/-- Whether the working tree has any staged, modified or untracked entry;
the condition the spec's `has_changes` invariant names (section 3). -/
def hasChanges (st : RepoState) : Bool :=
  !(st.staged.isEmpty && st.modified.isEmpty && st.untracked.isEmpty)

/-- A deterministic 40-character hexadecimal commit identifier for the
model's engine: the hex digits of `n`, left-padded with zeros. -/
def shaOfNat (n : Nat) : String :=
  let ds := Nat.toDigits 16 n
  String.mk (List.replicate (40 - ds.length) '0' ++ ds)

/-- Fixed author used by the model's engine for new commits. -/
def modelAuthor : String := "model-author"

/-- Fixed ISO-8601 timestamp used by the model's engine for new commits. -/
def modelTimestamp : String := "1970-01-01T00:00:00"

/-- Modelled from the spec: the fixed placeholder message of the first
commit made by `initialize` (section 4.1). -/
def placeholderMsg : String := "Initial commit"

/-- Modelled from the spec: `GitManager.initialize(path,
make_initial_commit)` (section 4.1), the Python `initialize` method.
Idempotent: on an already-initialized repository it succeeds without
altering history. Otherwise it creates the repository metadata; if
`make_initial_commit` is true and the directory is non-empty it stages
everything present and creates a first commit with a fixed placeholder
message; with `make_initial_commit` false no commit is created. Returns
the human-readable status string and the new state. -/
def initRepo (st : RepoState) (make_initial_commit : Bool) : String × RepoState :=
  if st.is_init then
    ("Repository already initialized", st)
  else
    let st1 : RepoState :=
      { st with is_init := true, current_branch := some "main" }
    if make_initial_commit && !st.working_tree.isEmpty then
      let c : Commit :=
        { sha := shaOfNat st.commits.length, message := placeholderMsg,
          author := modelAuthor, timestamp := modelTimestamp,
          tree := st.working_tree }
      ("Initialized repository with initial commit",
       { st1 with commits := c :: st1.commits,
                  staged := [], modified := [], untracked := [] })
    else
      ("Initialized empty repository", st1)

/-- Modelled from the spec: `GitManager.get_status(path)` (section 4.1), a
pure read-only query. An uninitialized repository yields
`is_initialized = false`, null branch, `has_changes = false` and empty
lists rather than raising. -/
def get_status (st : RepoState) : RepoStatus :=
  if st.is_init then
    { is_init := true, current_branch := st.current_branch,
      has_changes := hasChanges st, staged_files := st.staged,
      modified_files := st.modified, untracked_files := st.untracked }
  else
    { is_init := false, current_branch := none, has_changes := false,
      staged_files := [], modified_files := [], untracked_files := [] }

/-- Modelled from the spec: the sentinel message `commit_all` returns on a
clean working tree instead of a SHA (section 4.1, edge case). -/
def noChangesMsg : String := "No changes to commit"

/-- Modelled from the spec: `GitManager.commit_all(path, message)`
(section 4.1). Fails with ValidationError if `message` is empty; on a
clean tree returns the no-changes sentinel without creating a commit;
otherwise stages every change, commits the working snapshot with
`message`, and returns the new 40-character SHA. -/
def commit_all (st : RepoState) (message : String) :
    Except VcError (String × RepoState) :=
  if message = "" then
    .error (.validation "commit message must not be empty")
  else if hasChanges st then
    let c : Commit :=
      { sha := shaOfNat st.commits.length, message := message,
        author := modelAuthor, timestamp := modelTimestamp,
        tree := st.working_tree }
    .ok (c.sha,
      { st with commits := c :: st.commits,
                staged := [], modified := [], untracked := [] })
  else
    .ok (noChangesMsg, st)

/-- First content bound to path `k` in a tree snapshot. -/
def treeGet (t : Tree) (k : String) : Option String :=
  (t.find? (fun p => p.1 == k)).map Prod.snd

/-- Number of lines in a content string, the model engine's per-file diff
stat. -/
def lineCount (s : String) : Nat := (s.splitOn "\n").length

/-- A unified-diff-style patch body for one changed file in the model. -/
def mkPatch (old new : String) : String :=
  "- " ++ old ++ "\n+ " ++ new

/-- Per-path diff entry between two snapshots: the FileChange together
with its engine-reported (insertions, deletions) pair; `none` when the
path is unchanged. -/
def diffEntry (t1 t2 : Tree) (k : String) : Option (FileChange × Nat × Nat) :=
  match treeGet t1 k, treeGet t2 k with
  | none, some v => some ({ path := k, status := .added, patch := mkPatch "" v }, lineCount v, 0)
  | some v, none => some ({ path := k, status := .deleted, patch := mkPatch v "" }, 0, lineCount v)
  | some v1, some v2 =>
      if v1 = v2 then none
      else some ({ path := k, status := .modified, patch := mkPatch v1 v2 },
                 lineCount v2, lineCount v1)
  | none, none => none

/-- All per-path diff entries between two tree snapshots (a direct
two-tree comparison, per the spec, section 4.1). -/
def diffEntries (t1 t2 : Tree) : List (FileChange × Nat × Nat) :=
  ((t1.map Prod.fst ++ t2.map Prod.fst).dedup).filterMap (diffEntry t1 t2)

/-- Whether the first character list starts the second. -/
def listPref : List Char → List Char → Bool
  | [], _ => true
  | _ :: _, [] => false
  | a :: as, b :: bs => decide (a = b) && listPref as bs

/-- Modelled from the spec: resolve a (possibly abbreviated) commit SHA to
a commit of the repository (section 4.1: accepts abbreviated SHAs per
engine convention, resolved to full SHAs in the result). -/
def resolveRef (st : RepoState) (r : String) : Option Commit :=
  if r = "" then none
  else st.commits.find? (fun c => listPref r.data c.sha.data)

/-- Modelled from the spec: `GitManager.compare_commits(path, from_sha,
to_sha)` (section 4.1). Both refs must resolve (NotFoundError otherwise);
computes the tree-level difference between the two commits' snapshots,
with aggregate insertion/deletion counts equal to the sums of the per-file
stats. Identical refs give an empty `files_changed` list — a degenerate
success, not an error (section 4.1 and section 8). -/
def compare_commits (st : RepoState) (from_sha to_sha : String) :
    Except VcError CommitDiff :=
  match resolveRef st from_sha, resolveRef st to_sha with
  | some c1, some c2 =>
      let es := diffEntries c1.tree c2.tree
      .ok { from_sha := c1.sha, to_sha := c2.sha,
            files_changed := es.map (fun e => e.1),
            insertions := (es.map (fun e => e.2.1)).sum,
            deletions := (es.map (fun e => e.2.2)).sum }
  | _, _ => .error (.notFound "commit reference does not resolve")

/-- History of the requested branch: the sentinel "HEAD" (and the current
branch's own name) name the checked-out branch's history; any other name
must be a local branch. -/
def branchHistory (st : RepoState) (branch : String) : Option (List Commit) :=
  if branch = "HEAD" then some st.commits
  else if st.current_branch = some branch then some st.commits
  else st.branches.lookup branch

/-- Modelled from the spec: `GitManager.list_commits(path, branch, limit)`
(section 4.1). Fails with RepositoryNotInitializedError when the
repository has no commits yet, NotFoundError when `branch` does not
resolve; otherwise returns at most `limit` records of the branch's
history, newest first, without reordering. -/
def list_commits (st : RepoState) (branch : String) (limit : Nat) :
    Except VcError CommitList :=
  if st.commits.isEmpty then
    .error (.repoNotInit "repository has no commits yet")
  else
    match branchHistory st branch with
    | none => .error (.notFound "branch does not resolve")
    | some cs => .ok { branch := branch, commits := (cs.take limit).map Commit.toRecord }

/-- Paths that differ between two snapshots; used to report prior
uncommitted work as staged/unstaged changes after a reset. -/
def changedPaths (t1 t2 : Tree) : List String :=
  (diffEntries t1 t2).map (fun e => e.1.path)

/-- Modelled from the spec: `GitManager.rollback(path, commit_sha, mode)`
(section 4.1). `mode` must be soft, mixed or hard (ValidationError
otherwise); `commit_sha` must resolve (NotFoundError otherwise). Moves the
branch pointer to the resolved commit and returns its full SHA as the new
HEAD; soft keeps prior work staged, mixed leaves it as unstaged
modifications, hard discards it and overwrites the working tree. -/
def rollback (st : RepoState) (commit_sha mode : String) :
    Except VcError (String × RepoState) :=
  if mode ≠ "soft" ∧ mode ≠ "mixed" ∧ mode ≠ "hard" then
    .error (.validation "mode must be soft, mixed or hard")
  else
    match resolveRef st commit_sha with
    | none => .error (.notFound "commit reference does not resolve")
    | some c =>
        let hist := st.commits.dropWhile (fun x => x.sha ≠ c.sha)
        if mode = "hard" then
          .ok (c.sha, { st with commits := hist, staged := [], modified := [],
                                untracked := [], working_tree := c.tree })
        else if mode = "mixed" then
          .ok (c.sha, { st with commits := hist,
                                staged := [],
                                modified := changedPaths c.tree st.working_tree,
                                untracked := [] })
        else
          .ok (c.sha, { st with commits := hist,
                                staged := changedPaths c.tree st.working_tree,
                                modified := [],
                                untracked := [] })

/-- From `tools.py`: the nested `get_manager` helper of `register_tools`.
`path = repo_path or default_repo_path`; raises a plain `ValueError` when
the result is still falsy, before any `GitManager` is constructed. The
empty string models an omitted/falsy `repo_path`. -/
def get_manager (repo_path : String) (default_repo_path : Option String) :
    Except VcError String :=
  let path := if repo_path = "" then default_repo_path.getD "" else repo_path
  if path = "" then
    .error (.valueError "repo_path is required (no default configured)")
  else
    .ok path

/-- The ten tools `register_tools` registers in `tools.py`. `init_repo`
models the `initialize_repo` tool. -/
inductive ToolName where
  | init_repo
  | get_repo_status
  | commit_all_changes
  | list_commits
  | rollback_to_commit
  | compare_commits
  | create_branch
  | switch_branch
  | list_branches
  | generate_commit_message
deriving DecidableEq, Repr

/-- From `tools.py`: which repository path each tool hands to
`GitManager`. `initialize_repo`, `get_repo_status` and
`commit_all_changes` construct `GitManager(repo_path)` directly from the
per-call argument; every other tool goes through `get_manager`, which
substitutes the process-wide default for a falsy `repo_path`. -/
def toolManagerPath (t : ToolName) (repo_path : String)
    (default_repo_path : Option String) : Except VcError String :=
  match t with
  | .init_repo => .ok repo_path
  | .get_repo_status => .ok repo_path
  | .commit_all_changes => .ok repo_path
  | _ => get_manager repo_path default_repo_path

/-- Whether a tool's body routes its path through `get_manager` (and hence
through the default-path fallback) in `tools.py`. -/
def usesDefaultPath : ToolName → Bool
  | .init_repo => false
  | .get_repo_status => false
  | .commit_all_changes => false
  | _ => true

/-- From `tools.py`: the default of the `branch` parameter of the
`list_commits` tool. -/
def defaultBranchArg : String := "HEAD"

/-- From `tools.py`: the default of the `limit` parameter of the
`list_commits` tool. -/
def defaultLimitArg : Nat := 50

/-- From `tools.py`: the default of the `mode` parameter of the
`rollback_to_commit` tool. -/
def defaultRollbackMode : String := "soft"

/-- From `tools.py`: the default of the `style` parameter of the
`generate_commit_message` tool. -/
def defaultStyleArg : String := "conventional"

/-- From `tools.py`: the body of the `get_repo_status` tool — a pure
status query; the repository state is returned unchanged. -/
def get_repo_status_t (st : RepoState) : Except VcError (RepoStatus × RepoState) :=
  .ok (get_status st, st)

/-- From `tools.py`: the body of the `commit_all_changes` tool — lazy
initialization for mutating operations (`initialize(initial_commit=False)`
when `is_initialized()` is false), then `commit_all(message)`. -/
def commit_all_changes_t (st : RepoState) (message : String) :
    Except VcError (String × RepoState) :=
  let st1 := if st.is_init then st else (initRepo st false).2
  commit_all st1 message

/-- From `tools.py`: the body of the `rollback_to_commit` tool —
`manager.rollback` followed by the confirmation string
`f"Rolled back to {commit_sha[:7]}. New HEAD: {new_head[:7]} (mode: {mode})"`. -/
def rollback_to_commit_t (st : RepoState) (commit_sha mode : String) :
    Except VcError (String × RepoState) :=
  (rollback st commit_sha mode).map (fun p =>
    ("Rolled back to " ++ commit_sha.take 7 ++ ". New HEAD: " ++
       p.1.take 7 ++ " (mode: " ++ mode ++ ")", p.2))

/-- Whether `sub` occurs as a substring of `s`; models the Python
`sub in s` test for the non-empty literals used in `tools.py`. -/
def strHas (s sub : String) : Bool := decide ((s.splitOn sub).length > 1)

/-- From `tools.py`: the message-building body of the
`generate_commit_message` tool, a pure function of the repository status
and the `style` argument. Any style other than "conventional" takes the
plain-format branch; no branch raises. -/
def gen_message (status : RepoStatus) (style : String) : String :=
  if status.has_changes = false then "No changes to describe"
  else
    let changes : List String :=
      (if status.staged_files ≠ [] then
        ["Staged: " ++ String.intercalate ", " (status.staged_files.take 5)]
        ++ (if status.staged_files.length > 5 then
              ["  ...and " ++ toString (status.staged_files.length - 5) ++ " more"]
            else [])
       else [])
      ++ (if status.modified_files ≠ [] then
            ["Modified: " ++ String.intercalate ", " (status.modified_files.take 5)]
          else [])
      ++ (if status.untracked_files ≠ [] then
            ["New: " ++ String.intercalate ", " (status.untracked_files.take 5)]
          else [])
    let file_count := status.staged_files.length + status.modified_files.length
      + status.untracked_files.length
    let message :=
      if style = "conventional" then
        let pfx :=
          if status.untracked_files ≠ [] then "feat"
          else if (status.modified_files ++ status.staged_files).any
                    (fun f => strHas f.toLower "test") then "test"
          else if (status.modified_files ++ status.staged_files).any
                    (fun f => strHas f.toLower "readme" || strHas f.toLower "doc") then "docs"
          else "chore"
        pfx ++ ": update " ++ toString file_count ++ " file(s)"
      else
        "Update " ++ toString file_count ++ " file(s)"
    "Suggested message: " ++ message ++ "\n\nChanges detected:\n"
      ++ String.intercalate "\n" changes

/-- From `tools.py`: the body of the `generate_commit_message` tool after
path resolution — `manager.get_status()` followed by the pure
message-building logic; it returns normally on every input. -/
def generate_commit_message_t (st : RepoState) (style : String) :
    Except VcError String :=
  .ok (gen_message (get_status st) style)

/-- `sub` occurs inside `s`: `s` splits as `l ++ sub ++ r` at the
character level. -/
def strContains (s sub : String) : Prop :=
  ∃ l r : List Char, s.data = l ++ (sub.data ++ r)

/-- Example snapshot with one file, used by the concrete witnesses. -/
def exTree1 : Tree := [("a.txt", "hello")]

/-- Example commit: the commit `commit_all` creates from `exTree1` on an
empty history. -/
def exC1 : Commit :=
  { sha := shaOfNat 0, message := "m1", author := modelAuthor,
    timestamp := modelTimestamp, tree := exTree1 }

/-- Example state: an uninitialized path holding one untracked file. -/
def exStU : RepoState :=
  { is_init := false, commits := [], branches := [], current_branch := none,
    staged := [], modified := [], untracked := ["a.txt"], working_tree := exTree1 }

/-- Example state: `exStU` after initialization, the untracked file still
uncommitted. -/
def exStI : RepoState :=
  { exStU with is_init := true, current_branch := some "main" }

/-- Example state: an initialized repository with one commit and a clean
working tree. -/
def exStClean : RepoState :=
  { is_init := true, commits := [exC1], branches := [],
    current_branch := some "main", staged := [], modified := [],
    untracked := [], working_tree := exTree1 }

theorem initRepo_false_state (st : RepoState) (h : st.is_init = false) :
    (initRepo st false).2 = { st with is_init := true, current_branch := some "main" } := by
  unfold initRepo
  simp [h]

theorem commit_all_cases (st : RepoState) (m out : String) (st2 : RepoState)
    (h : commit_all st m = .ok (out, st2)) :
    (out = noChangesMsg ∧ st2 = st) ∨
    (∃ c : Commit, out = c.sha ∧ c.message = m ∧
      st2 = { st with commits := c :: st.commits,
                      staged := [], modified := [], untracked := [] }) := by
  unfold commit_all at h
  split at h
  · simp at h
  · split at h
    · simp only [Except.ok.injEq, Prod.mk.injEq] at h
      right
      exact ⟨_, h.1.symm, rfl, h.2.symm⟩
    · simp only [Except.ok.injEq, Prod.mk.injEq] at h
      left
      exact ⟨h.1.symm, h.2.symm⟩

theorem diffEntry_self (t : Tree) (k : String) : diffEntry t t k = none := by
  unfold diffEntry
  cases h : treeGet t k <;> simp [h]

theorem diffEntries_self (t : Tree) : diffEntries t t = [] := by
  unfold diffEntries
  rw [List.filterMap_eq_nil_iff]
  exact fun a _ => diffEntry_self t a

theorem resolveRef_mem (st : RepoState) (r : String) (c : Commit)
    (h : resolveRef st r = some c) : c ∈ st.commits := by
  unfold resolveRef at h
  split at h
  · simp at h
  · exact List.mem_of_find?_eq_some h

theorem head_dropWhile_sha (l : List Commit) (s : String) (hx : ∃ x ∈ l, x.sha = s) :
    ∃ c', (l.dropWhile (fun x => x.sha ≠ s)).head? = some c' ∧ c'.sha = s := by
  induction l with
  | nil => simp at hx
  | cons a as ih =>
    by_cases ha : a.sha = s
    · exact ⟨a, by simp [List.dropWhile_cons, ha], ha⟩
    · have hx' : ∃ x ∈ as, x.sha = s := by
        rcases hx with ⟨x, hm, hs⟩
        rcases List.mem_cons.mp hm with h1 | h2
        · exact absurd (h1 ▸ hs) ha
        · exact ⟨x, h2, hs⟩
      rcases ih hx' with ⟨c', h1, h2⟩
      exact ⟨c', by simpa [List.dropWhile_cons, ha] using h1, h2⟩

theorem rollback_ok (st : RepoState) (sha mode nh : String) (st2 : RepoState)
    (h : rollback st sha mode = .ok (nh, st2)) :
    ∃ c, resolveRef st sha = some c ∧ nh = c.sha ∧
      st2.commits = st.commits.dropWhile (fun x => x.sha ≠ c.sha) := by
  unfold rollback at h
  split at h
  · simp at h
  · split at h
    · simp at h
    · rename_i c heq
      split at h
      · simp only [Except.ok.injEq, Prod.mk.injEq] at h
        exact ⟨c, heq, h.1.symm, by rw [← h.2]⟩
      · split at h
        · simp only [Except.ok.injEq, Prod.mk.injEq] at h
          exact ⟨c, heq, h.1.symm, by rw [← h.2]⟩
        · simp only [Except.ok.injEq, Prod.mk.injEq] at h
          exact ⟨c, heq, h.1.symm, by rw [← h.2]⟩

theorem strContainsAux (l r : List Char) (s x : String)
    (h : s.data = l ++ (x.data ++ r)) : strContains s x := ⟨l, r, h⟩

theorem gen_message_style (status : RepoStatus) (style : String)
    (hs : style ≠ "conventional") :
    gen_message status style = gen_message status "simple" := by
  by_cases hc : status.has_changes = false <;>
    simp [gen_message, hc, eq_false hs]

/-- C1 counterexample: with the process-wide default path "/repo"
configured and an empty per-call `repo_path`, the `get_repo_status` tool
hands `GitManager` the empty per-call path, not the default — so the
claim that every operation (in particular `get_repo_status`) falls back
to the default is false on the code. -/
theorem c1_counterexample :
    toolManagerPath ToolName.get_repo_status "" (some "/repo") = .ok "" ∧
    (Except.ok "" : Except VcError String) ≠ .ok "/repo" := by decide

/-- C1 (amended): the default-path fallback applies exactly to the tools
that route through `get_manager` (`list_commits`, `rollback_to_commit`,
`compare_commits`, `create_branch`, `switch_branch`, `list_branches`,
`generate_commit_message`): those use the configured default when the
per-call `repo_path` is empty, while `initialize_repo`, `get_repo_status`
and `commit_all_changes` pass the per-call `repo_path` to `GitManager`
verbatim and never consult the default. -/
theorem c1_default_path_split (t : ToolName) (d p : String) (hd : d ≠ "") :
    (usesDefaultPath t = true → toolManagerPath t "" (some d) = .ok d) ∧
    (usesDefaultPath t = false → toolManagerPath t p (some d) = .ok p) := by
  cases t <;> simp [usesDefaultPath, toolManagerPath, get_manager, hd]

/-- C1 witness: instantiation at the `list_commits` tool (routed, so the
default "/repo" is used) with default "/repo" and per-call path "p". -/
theorem c1_witness :
    (usesDefaultPath ToolName.list_commits = true →
      toolManagerPath ToolName.list_commits "" (some "/repo") = .ok "/repo") ∧
    (usesDefaultPath ToolName.list_commits = false →
      toolManagerPath ToolName.list_commits "p" (some "/repo") = .ok "p") :=
  c1_default_path_split ToolName.list_commits "/repo" "p" (by decide)

/-- C2: lazy initialization happens only inside mutating operations — on
an uninitialized state, `commit_all_changes` succeeds and leaves the
repository initialized, while `get_repo_status` returns the status
unchanged-state pair and still reports the repository as uninitialized. -/
theorem c2_lazy_init_only_mutating (st : RepoState) (m : String)
    (h0 : st.is_init = false) (hm : m ≠ "") :
    (∃ out st2, commit_all_changes_t st m = .ok (out, st2) ∧ st2.is_init = true) ∧
    get_repo_status_t st = .ok (get_status st, st) ∧
    (get_status st).is_init = false := by
  refine ⟨?_, rfl, by simp [get_status, h0]⟩
  unfold commit_all_changes_t
  rw [h0]
  simp only [Bool.false_eq_true, if_false]
  rw [initRepo_false_state st h0]
  unfold commit_all
  rw [if_neg hm]
  by_cases hc :
      hasChanges { st with is_init := true, current_branch := some "main" } = true
  · rw [if_pos hc]
    exact ⟨_, _, rfl, rfl⟩
  · rw [if_neg hc]
    exact ⟨_, _, rfl, rfl⟩

/-- C2 witness: the uninitialized example state with one untracked file;
committing "m1" succeeds and initializes, the status query does not. -/
theorem c2_witness :
    (∃ out st2, commit_all_changes_t exStU "m1" = .ok (out, st2) ∧ st2.is_init = true) ∧
    get_repo_status_t exStU = .ok (get_status exStU, exStU) ∧
    (get_status exStU).is_init = false :=
  c2_lazy_init_only_mutating exStU "m1" rfl (by decide)

/-- C3: on an initialized repository with a clean working tree,
`commit_all_changes` with a non-empty message creates nothing and returns
the "no changes" sentinel, whose length is not 40, so it is never a
40-character SHA. -/
theorem c3_clean_tree_sentinel (st : RepoState) (m : String)
    (hm : m ≠ "") (hi : st.is_init = true) (hc : hasChanges st = false) :
    commit_all_changes_t st m = .ok (noChangesMsg, st) ∧
    noChangesMsg.length ≠ 40 := by
  refine ⟨?_, by decide⟩
  unfold commit_all_changes_t
  rw [hi]
  simp only [if_true]
  unfold commit_all
  rw [if_neg hm, hc]
  simp

/-- C3 witness: the clean one-commit example state with message "m2". -/
theorem c3_witness :
    commit_all_changes_t exStClean "m2" = .ok (noChangesMsg, exStClean) ∧
    noChangesMsg.length ≠ 40 :=
  c3_clean_tree_sentinel exStClean "m2" (by decide) rfl (by decide)

/-- C4: round-trip between commit and history — when `commit_all` succeeds
with a result that is not the no-changes sentinel (i.e. returns a SHA),
`list_commits` with the default branch and limit 1 returns exactly one
record, whose sha is the returned SHA and whose message is the committed
message. -/
theorem c4_commit_list_round_trip (st : RepoState) (m s : String) (st2 : RepoState)
    (h : commit_all st m = .ok (s, st2)) (hs : s ≠ noChangesMsg) :
    ∃ r : CommitRecord,
      list_commits st2 defaultBranchArg 1 =
        .ok { branch := defaultBranchArg, commits := [r] } ∧
      r.sha = s ∧ r.message = m := by
  rcases commit_all_cases st m s st2 h with ⟨h1, _⟩ | ⟨c, h1, h2, h3⟩
  · exact absurd h1 hs
  · refine ⟨c.toRecord, ?_, h1.symm, h2⟩
    rw [h3]
    unfold list_commits branchHistory defaultBranchArg
    simp

/-- C4 witness: committing "m1" on the initialized dirty example state
returns the SHA of 0 and a one-record history containing it. -/
theorem c4_witness :
    ∃ r : CommitRecord,
      list_commits exStClean defaultBranchArg 1 =
        .ok { branch := defaultBranchArg, commits := [r] } ∧
      r.sha = shaOfNat 0 ∧ r.message = "m1" :=
  c4_commit_list_round_trip exStI "m1" (shaOfNat 0) exStClean (by decide) (by decide)

/-- C5: comparing a resolvable ref with itself succeeds and returns a
CommitDiff with an empty `files_changed` list and zero insertions and
deletions, rather than failing. -/
theorem c5_identical_refs_empty_diff (st : RepoState) (r : String) (c : Commit)
    (h : resolveRef st r = some c) :
    compare_commits st r r =
      .ok { from_sha := c.sha, to_sha := c.sha, files_changed := [],
            insertions := 0, deletions := 0 } := by
  unfold compare_commits
  rw [h]
  simp [diffEntries_self]

/-- C5 witness: the abbreviated ref "0" resolves in the one-commit example
state; comparing it with itself gives the empty diff. -/
theorem c5_witness :
    compare_commits exStClean "0" "0" =
      .ok { from_sha := exC1.sha, to_sha := exC1.sha, files_changed := [],
            insertions := 0, deletions := 0 } :=
  c5_identical_refs_empty_diff exStClean "0" exC1 (by decide)

/-- C6 counterexample: with the unrecognized style "bogus" on a state with
changes, `generate_commit_message` returns a suggestion normally instead
of failing with ValidationError. -/
theorem c6_counterexample :
    generate_commit_message_t exStI "bogus" =
      .ok "Suggested message: Update 1 file(s)\n\nChanges detected:\nNew: a.txt" ∧
    "bogus" ≠ "conventional" ∧ "bogus" ≠ "simple" := by decide

/-- C6 (amended): `generate_commit_message` never fails on a style
argument — it returns a message for every style, and every style other
than "conventional" is formatted exactly as the "simple" style. -/
theorem c6_unrecognized_style_as_simple (st : RepoState) (style : String)
    (hs : style ≠ "conventional") :
    (∃ s, generate_commit_message_t st style = .ok s) ∧
    generate_commit_message_t st style = generate_commit_message_t st "simple" := by
  refine ⟨⟨_, rfl⟩, ?_⟩
  unfold generate_commit_message_t
  rw [gen_message_style (get_status st) style hs]

/-- C6 witness: instantiation at the example state and style "bogus". -/
theorem c6_witness :
    (∃ s, generate_commit_message_t exStI "bogus" = .ok s) ∧
    generate_commit_message_t exStI "bogus" = generate_commit_message_t exStI "simple" :=
  c6_unrecognized_style_as_simple exStI "bogus" (by decide)

/-- C7: the `rollback_to_commit` tool's mode defaults to "soft"; on
success the requested ref resolves to a commit that becomes the new HEAD
(the head of the rolled-back history carries the resolved SHA), and the
confirmation string is the format string of `tools.py`, containing the
truncated (first 7 characters) requested SHA, the truncated new HEAD SHA
and the mode. -/
theorem c7_rollback_confirmation (st : RepoState) (sha mode out : String)
    (st2 : RepoState)
    (h : rollback_to_commit_t st sha mode = .ok (out, st2)) :
    defaultRollbackMode = "soft" ∧
    ∃ c, resolveRef st sha = some c ∧
      (∃ c', st2.commits.head? = some c' ∧ c'.sha = c.sha) ∧
      out = "Rolled back to " ++ sha.take 7 ++ ". New HEAD: " ++ c.sha.take 7
            ++ " (mode: " ++ mode ++ ")" ∧
      strContains out (sha.take 7) ∧ strContains out (c.sha.take 7) ∧
      strContains out mode := by
  refine ⟨rfl, ?_⟩
  unfold rollback_to_commit_t at h
  cases hr : rollback st sha mode with
  | error e => rw [hr] at h; simp [Except.map] at h
  | ok p =>
    rw [hr] at h
    simp only [Except.map, Except.ok.injEq, Prod.mk.injEq] at h
    rcases rollback_ok st sha mode p.1 p.2 (by rw [hr]) with ⟨c, hres, hnh, hcm⟩
    refine ⟨c, hres, ?_, ?_, ?_, ?_, ?_⟩
    · rw [← h.2, hcm]
      exact head_dropWhile_sha st.commits c.sha
        ⟨c, resolveRef_mem st sha c hres, rfl⟩
    · rw [← h.1, hnh]
    · rw [← h.1]
      exact strContainsAux "Rolled back to ".data
        ((". New HEAD: " ++ p.1.take 7 ++ " (mode: " ++ mode ++ ")").data)
        _ _ (by simp)
    · rw [← h.1, hnh]
      exact strContainsAux ("Rolled back to " ++ sha.take 7 ++ ". New HEAD: ").data
        ((" (mode: " ++ mode ++ ")").data) _ _ (by simp)
    · rw [← h.1]
      exact strContainsAux
        ("Rolled back to " ++ sha.take 7 ++ ". New HEAD: " ++ p.1.take 7 ++ " (mode: ").data
        (")".data) _ _ (by simp)

/-- C7 witness: rolling the one-commit example state back to the
abbreviated ref "0" in the default soft mode. -/
theorem c7_witness :
    defaultRollbackMode = "soft" ∧
    ∃ c, resolveRef exStClean "0" = some c ∧
      (∃ c', exStClean.commits.head? = some c' ∧ c'.sha = c.sha) ∧
      "Rolled back to 0. New HEAD: 0000000 (mode: soft)" =
        "Rolled back to " ++ ("0" : String).take 7 ++ ". New HEAD: " ++ c.sha.take 7
          ++ " (mode: " ++ "soft" ++ ")" ∧
      strContains "Rolled back to 0. New HEAD: 0000000 (mode: soft)" (("0" : String).take 7) ∧
      strContains "Rolled back to 0. New HEAD: 0000000 (mode: soft)" (c.sha.take 7) ∧
      strContains "Rolled back to 0. New HEAD: 0000000 (mode: soft)" "soft" :=
  c7_rollback_confirmation exStClean "0" "soft"
    "Rolled back to 0. New HEAD: 0000000 (mode: soft)" exStClean (by decide)

/-- C8: the `list_commits` tool defaults its branch argument to the
sentinel "HEAD" and its limit to 50, and every successful call returns at
most `limit` records, the newest-first prefix of the resolved branch's
history (the model stores histories newest first and `list_commits` takes
a prefix without reordering). -/
theorem c8_list_commits_bounds (st : RepoState) (branch : String) (limit : Nat)
    (cl : CommitList) (h : list_commits st branch limit = .ok cl) :
    defaultBranchArg = "HEAD" ∧ defaultLimitArg = 50 ∧
    cl.commits.length ≤ limit ∧
    ∃ cs, branchHistory st branch = some cs ∧
      cl.commits = (cs.take limit).map Commit.toRecord := by
  refine ⟨rfl, rfl, ?_⟩
  unfold list_commits at h
  split at h
  · simp at h
  · split at h
    · simp at h
    · rename_i cs hcs
      simp only [Except.ok.injEq] at h
      rw [← h]
      refine ⟨?_, cs, hcs, rfl⟩
      simp [List.length_take]

/-- C8 witness: listing the one-commit example state at the defaults. -/
theorem c8_witness :
    defaultBranchArg = "HEAD" ∧ defaultLimitArg = 50 ∧
    ({ branch := "HEAD", commits := [exC1.toRecord] } : CommitList).commits.length ≤ 50 ∧
    ∃ cs, branchHistory exStClean "HEAD" = some cs ∧
      ({ branch := "HEAD", commits := [exC1.toRecord] } : CommitList).commits =
        (cs.take 50).map Commit.toRecord :=
  c8_list_commits_bounds exStClean "HEAD" 50
    { branch := "HEAD", commits := [exC1.toRecord] } (by decide)

/-- C9: every tool that routes through `get_manager`, when called with an
empty `repo_path` and no configured default, fails with the plain Python
`ValueError` — an error kind outside the spec's four-member taxonomy —
during path resolution, before any `GitManager` is constructed. -/
theorem c9_value_error_outside_taxonomy (t : ToolName)
    (h : usesDefaultPath t = true) :
    toolManagerPath t "" none =
      .error (.valueError "repo_path is required (no default configured)") ∧
    inTaxonomy (.valueError "repo_path is required (no default configured)") = false := by
  cases t <;> simp_all [usesDefaultPath, toolManagerPath, get_manager, inTaxonomy]

/-- C9 witness: instantiation at the `list_commits` tool. -/
theorem c9_witness :
    toolManagerPath ToolName.list_commits "" none =
      .error (.valueError "repo_path is required (no default configured)") ∧
    inTaxonomy (.valueError "repo_path is required (no default configured)") = false :=
  c9_value_error_outside_taxonomy ToolName.list_commits (by decide)

/-- C10: the bootstrap step of `commit_all_changes` initializes with
`initial_commit = false` and therefore creates no commit, and a single
`commit_all_changes` call adds at most the one commit carrying the
caller's message. -/
theorem c10_bootstrap_no_commit (st : RepoState) (m out : String) (st2 : RepoState)
    (h0 : st.is_init = false)
    (h : commit_all_changes_t st m = .ok (out, st2)) :
    (initRepo st false).2.commits = st.commits ∧
    (st2.commits = st.commits ∨
      ∃ c, st2.commits = c :: st.commits ∧ c.message = m) := by
  have hb : (initRepo st false).2.commits = st.commits := by
    rw [initRepo_false_state st h0]
  refine ⟨hb, ?_⟩
  unfold commit_all_changes_t at h
  rw [h0] at h
  simp only [Bool.false_eq_true, if_false] at h
  rcases commit_all_cases _ m out st2 h with ⟨_, h2⟩ | ⟨c, _, h2, h3⟩
  · left
    rw [h2, hb]
  · right
    exact ⟨c, by rw [h3]; simp [hb], h2⟩

/-- C10 witness: committing "m1" on the uninitialized example state adds
exactly one commit, carrying "m1". -/
theorem c10_witness :
    (initRepo exStU false).2.commits = exStU.commits ∧
    (exStClean.commits = exStU.commits ∨
      ∃ c, exStClean.commits = c :: exStU.commits ∧ c.message = "m1") :=
  c10_bootstrap_no_commit exStU "m1" (shaOfNat 0) exStClean rfl (by decide)

end VCH
